import Mathlib

/-!
Verification of the job-matching scoring engine and ranking pipeline
(`job_matcher/core/matcher.py` together with the data model in
`job_matcher/core/models.py`).

Modelling conventions:
* Python `float` arithmetic is modelled by exact rational arithmetic (`ℚ`);
  all the constants involved (0.35, 1.5, 365.25, …) are exactly
  representable.
* Python `datetime` values are modelled as integer day counts; the
  `timedelta.days` quantity `(end - start).days` becomes plain integer
  subtraction, and the current clock reading `datetime.now()` becomes an
  explicit `now : ℤ` parameter threaded through the scoring functions.
* Python strings are modelled by Lean `String`; `str.lower()` is modelled
  by ASCII lowercasing, and the substring test `a in b` is implemented
  directly on character lists.
* Python sets of strings (whose iteration order the scoring code relies on
  only up to membership and multiplicity) are modelled as lists
  deduplicated in first-occurrence order.
* Optional integers follow Python truthiness: `None` and `0` are falsy.
-/

namespace JobMatcher

/-- The `SkillLevel` enum from `models.py`. -/
inductive SkillLevel where
  | beginner
  | intermediate
  | advanced
  | expert
deriving DecidableEq, Repr

/-- The `Skill` dataclass (the fields read by the matcher). -/
structure Skill where
  name : String
  level : SkillLevel := SkillLevel.intermediate
  keywords : List String := []
deriving DecidableEq, Repr

/-- The `Experience` dataclass, reduced to the fields the matcher reads:
start date and optional end date, both as integer day counts. -/
structure Experience where
  startDate : ℤ
  endDate : Option ℤ := none
deriving DecidableEq, Repr

/-- The `Education` dataclass (the matcher only reads `degree`). -/
structure Education where
  degree : String
deriving DecidableEq, Repr

/-- The `UserProfile` dataclass, reduced to the fields the matcher reads. -/
structure UserProfile where
  location : String := ""
  skills : List Skill := []
  experiences : List Experience := []
  education : List Education := []
  desiredLocations : List String := []
  minSalary : Option ℚ := none
  remotePreference : String := "flexible"
deriving DecidableEq, Repr

/-- The `Job` dataclass, reduced to the fields the matcher reads. -/
structure Job where
  location : String := ""
  description : String := ""
  requirements : List String := []
  requiredSkills : List String := []
  preferredSkills : List String := []
  salaryMin : Option ℚ := none
  salaryMax : Option ℚ := none
  remoteOption : Bool := false
  experienceLevel : String := ""
deriving DecidableEq, Repr

/-- The `MatchScore` dataclass with its Python default field values. -/
structure MatchScore where
  overallScore : ℚ := 0
  skillMatchScore : ℚ := 0
  experienceMatchScore : ℚ := 0
  educationMatchScore : ℚ := 0
  locationMatchScore : ℚ := 0
  salaryMatchScore : ℚ := 0
  cultureFitScore : ℚ := 0
  hiringLikelihood : ℚ := 0
  compensationScore : ℚ := 0
  matchedSkills : List String := []
  missingSkills : List String := []
  bonusSkills : List String := []
deriving DecidableEq, Repr

/-! ### String helpers -/

/-- Python `str.lower()` (ASCII): lowercase every character. -/
def lowerStr (s : String) : String := ⟨s.toList.map Char.toLower⟩

/-- Python's substring test `needle in hay` on character lists. -/
def containsSub (needle : List Char) : List Char → Bool
  | [] => needle.isEmpty
  | c :: t => needle.isPrefixOf (c :: t) || containsSub needle t

/-- Python's substring test `a in b` on strings. -/
def strIn (a b : String) : Bool := containsSub a.toList b.toList

/-- The characters matched by `\s` / `str.split()` (ASCII). -/
def isPySpace (c : Char) : Bool :=
  c == ' ' || c == '\t' || c == '\n' || c == '\r' || c == '\x0b' || c == '\x0c'

/-- Helper for `str.split()`: accumulates the current word (reversed). -/
def splitWsAux : List Char → List Char → List (List Char)
  | [], acc => if acc = [] then [] else [acc.reverse]
  | c :: t, acc =>
    if isPySpace c then
      if acc = [] then splitWsAux t [] else acc.reverse :: splitWsAux t []
    else splitWsAux t (c :: acc)

/-- Python `str.split()` (split on whitespace runs, no empty words). -/
def splitWs (cs : List Char) : List (List Char) := splitWsAux cs []

/-- Helper for `str.title()`: the Bool records whether the previous
character was a letter. -/
def titleCaseAux : List Char → Bool → List Char
  | [], _ => []
  | c :: t, prevAlpha =>
    (if c.isAlpha then (if prevAlpha then c.toLower else c.toUpper) else c)
      :: titleCaseAux t c.isAlpha

/-- Python `str.title()` (ASCII). -/
def titleCase (s : String) : String := ⟨titleCaseAux s.toList false⟩

/-- Model of a Python set of strings: deduplicate keeping first
occurrences (the scoring code depends on set contents, not hash order). -/
def pySet (l : List String) : List String := l.eraseDups

/-! ### Skill equivalence (`JobMatcher._skills_match`) -/

/-- The `variations` synonym table from `_skills_match`, in source order. -/
def variationsTable : List (String × List String) :=
  [ ("javascript", ["js", "ecmascript"])
  , ("typescript", ["ts"])
  , ("python", ["py"])
  , ("kubernetes", ["k8s"])
  , ("postgresql", ["postgres", "psql"])
  , ("mongodb", ["mongo"])
  , ("react", ["reactjs", "react.js"])
  , ("node.js", ["nodejs", "node"])
  , ("machine learning", ["ml"])
  , ("artificial intelligence", ["ai"])
  , ("amazon web services", ["aws"])
  , ("google cloud platform", ["gcp"])
  , ("continuous integration", ["ci"])
  , ("continuous deployment", ["cd"])
  , ("ci/cd", ["cicd", "ci cd"])
  ]

/-- The body of the `for base, variants in variations.items()` loop:
one synonym-table entry relates `s1` and `s2`. -/
def variantClause (s1 s2 : String) (p : String × List String) : Bool :=
  (s1 == p.1 && p.2.contains s2) ||
  (s2 == p.1 && p.2.contains s1) ||
  (p.2.contains s1 && p.2.contains s2)

/-- Function `JobMatcher._skills_match`: exact match, synonym-table match, or
substring match between strings longer than 3 characters. -/
def skillsMatch (s1 s2 : String) : Bool :=
  s1 == s2 ||
  variationsTable.any (variantClause s1 s2) ||
  (decide (3 < s1.length) && decide (3 < s2.length) &&
    (strIn s1 s2 || strIn s2 s1))

/-! ### Skill match (`_calculate_skill_match`, `_fuzzy_skill_match`) -/

/-- Set `user_skills_lower`: the set of lowercased profile skill names. -/
def userSkillsLower (p : UserProfile) : List String :=
  pySet (p.skills.map fun s => lowerStr s.name)

/-- The per-job-skill test from `_calculate_skill_match`:
`req_lower in user_skills_lower or any(self._skills_match(req_lower, us) ...)`. -/
def skillMatchesUser (p : UserProfile) (jobSkill : String) : Bool :=
  let sl := lowerStr jobSkill
  (userSkillsLower p).contains sl ||
    (userSkillsLower p).any fun us => skillsMatch sl us

/-- Function `JobMatcher._fuzzy_skill_match`. -/
def fuzzySkillMatch (p : UserProfile) (description : String) : ℚ :=
  if description = "" then 50
  else
    let descLower := lowerStr description
    let matchCount : ℚ := p.skills.foldl
      (fun acc skill =>
        if strIn (lowerStr skill.name) descLower then
          acc + 1 +
            (if skill.level = SkillLevel.expert ∨ skill.level = SkillLevel.advanced
             then (1 : ℚ)/2 else 0)
        else acc) 0
    let totalSkills : ℚ := if p.skills.length = 0 then 1 else p.skills.length
    min 100 ((matchCount / totalSkills) * 100)

/-- Function `JobMatcher._calculate_skill_match`. -/
def calcSkillMatch (p : UserProfile) (job : Job) : ℚ :=
  if job.requiredSkills = [] ∧ job.preferredSkills = [] then
    fuzzySkillMatch p job.description
  else
    let requiredMatches : ℚ := job.requiredSkills.countP (skillMatchesUser p)
    let preferredMatches : ℚ := job.preferredSkills.countP (skillMatchesUser p)
    let reqTotal : ℚ :=
      if job.requiredSkills.length = 0 then 1 else job.requiredSkills.length
    let prefTotal : ℚ :=
      if job.preferredSkills.length = 0 then 1 else job.preferredSkills.length
    min 100 ((requiredMatches / reqTotal) * 70 + (preferredMatches / prefTotal) * 30)

/-! ### Experience match (`_calculate_experience_match`, `_extract_required_years`)

The four `re.search` patterns of `_extract_required_years` are modelled by
direct scanners over the lowercased text.  For these particular patterns a
leftmost scan with maximal munch for `\d+`/`\s*`/`\s+`, plus explicit
try-both-branches handling of the greedy optionals `s?` and `(?:of\s+)?`,
reproduces the Python regex semantics exactly: after a digit run or a
whitespace run the next pattern element can never consume a character of
the same class, so no other backtracking can occur. -/

/-- Property `Experience.duration_years`: `(end - start).days / 365.25`, with
`datetime.now()` modelled by the explicit `now` argument. -/
def durationYears (now : ℤ) (e : Experience) : ℚ :=
  ((e.endDate.getD now - e.startDate : ℤ) : ℚ) / (365.25 : ℚ)

/-- Property `UserProfile.total_experience_years`. -/
def totalExperienceYears (now : ℤ) (p : UserProfile) : ℚ :=
  (p.experiences.map (durationYears now)).sum

/-- Maximal munch of further digits, accumulating the value (`\d+`). -/
def takeDigitsAux : List Char → Nat → Nat × List Char
  | [], n => (n, [])
  | c :: t, n => if c.isDigit then takeDigitsAux t (n * 10 + (c.toNat - 48)) else (n, c :: t)

/-- Match `(\d+)` at the head of the input: at least one digit, maximal
munch, returning the captured value and the rest. -/
def takeDigits : List Char → Option (Nat × List Char)
  | [] => none
  | c :: t => if c.isDigit then some (takeDigitsAux t (c.toNat - 48)) else none

/-- Match a literal word at the head of the input. -/
def litP (w : String) (cs : List Char) : Option (List Char) :=
  if w.toList.isPrefixOf cs then some (cs.drop w.toList.length) else none

/-- Regex `\s*`: drop a maximal run of whitespace. -/
def dropSpaces : List Char → List Char
  | [] => []
  | c :: t => if isPySpace c then dropSpaces t else c :: t

/-- Regex `\s+`: at least one whitespace character, maximal munch. -/
def spaces1 : List Char → Option (List Char)
  | [] => none
  | c :: t => if isPySpace c then some (dropSpaces t) else none

/-- The part of patterns 1 and 2 after the captured digits:
`\+?\s*years?\s*(?:of\s+)?` followed by the pattern-specific ending.
The two greedy optionals are handled by trying both branches. -/
def yearsTail (finalP : List Char → Bool) (cs : List Char) : Bool :=
  let cs1 := match cs with
    | '+' :: t => t
    | _ => cs
  match litP "year" (dropSpaces cs1) with
  | none => false
  | some cs3 =>
    let after := fun (cs4 : List Char) =>
      let cs5 := dropSpaces cs4
      (match litP "of" cs5 with
       | some cs6 =>
         match spaces1 cs6 with
         | some cs7 => finalP cs7
         | none => false
       | none => false) || finalP cs5
    (match litP "s" cs3 with
     | some cs4 => after cs4
     | none => false) || after cs3

/-- Ending of pattern 1: `experience`. -/
def p1Final (cs : List Char) : Bool := (litP "experience" cs).isSome

/-- Ending of pattern 2: `(?:relevant|professional)`. -/
def p2Final (cs : List Char) : Bool :=
  (litP "relevant" cs).isSome || (litP "professional" cs).isSome

/-- Model of `re.search` for a pattern starting with `(\d+)`: try every start
position from the left; at a digit, munch the whole run and test the
tail. -/
def searchNumThen (tailP : List Char → Bool) : List Char → Option Nat
  | [] => none
  | c :: rest =>
    match takeDigits (c :: rest) with
    | some (n, cs2) => if tailP cs2 then some n else searchNumThen tailP rest
    | none => searchNumThen tailP rest

/-- Pattern 3 `minimum\s+(\d+)\s*years?` matched at the current position. -/
def p3At (cs : List Char) : Option Nat :=
  match litP "minimum" cs with
  | none => none
  | some cs1 =>
    match spaces1 cs1 with
    | none => none
    | some cs2 =>
      match takeDigits cs2 with
      | none => none
      | some (n, cs3) =>
        match litP "year" (dropSpaces cs3) with
        | some _ => some n
        | none => none

/-- Pattern 4 `at\s+least\s+(\d+)\s*years?` matched at the current position. -/
def p4At (cs : List Char) : Option Nat :=
  match litP "at" cs with
  | none => none
  | some cs1 =>
    match spaces1 cs1 with
    | none => none
    | some cs2 =>
      match litP "least" cs2 with
      | none => none
      | some cs3 =>
        match spaces1 cs3 with
        | none => none
        | some cs4 =>
          match takeDigits cs4 with
          | none => none
          | some (n, cs5) =>
            match litP "year" (dropSpaces cs5) with
            | some _ => some n
            | none => none

/-- Model of `re.search` for a pattern matcher applied at every start position. -/
def searchAt (pat : List Char → Option Nat) : List Char → Option Nat
  | [] => pat []
  | c :: rest =>
    match pat (c :: rest) with
    | some n => some n
    | none => searchAt pat rest

/-- Text `f"{job.description} {' '.join(job.requirements)}"`. -/
def extractText (job : Job) : String :=
  job.description ++ " " ++ String.intercalate " " job.requirements

/-- Function `JobMatcher._extract_required_years`: the four patterns tried in
order over the (case-insensitively matched, here: lowercased) job text. -/
def extractRequiredYears (job : Job) : Option ℚ :=
  let text := (lowerStr (extractText job)).toList
  match searchNumThen (yearsTail p1Final) text with
  | some n => some (n : ℚ)
  | none =>
    match searchNumThen (yearsTail p2Final) text with
    | some n => some (n : ℚ)
    | none =>
      match searchAt p3At text with
      | some n => some (n : ℚ)
      | none =>
        match searchAt p4At text with
        | some n => some (n : ℚ)
        | none => none

/-- The `level_years` lookup of `_calculate_experience_match`, in source
order (the first key contained in the experience-level string wins). -/
def levelYears : List (String × ℚ) :=
  [ ("entry", 0), ("junior", 1), ("mid", 3), ("senior", 5), ("lead", 7)
  , ("principal", 10), ("staff", 8), ("director", 10), ("executive", 15) ]

/-- Function `JobMatcher._calculate_experience_match`.  When
`requiredYears = 0` and `userYears < 0` the Python code would raise
`ZeroDivisionError`; in `ℚ` the division yields 0 (that state is
unreachable for profiles without negative experience durations). -/
def calcExperienceMatch (p : UserProfile) (job : Job) (now : ℤ) : ℚ :=
  let userYears := totalExperienceYears now p
  let requiredYears : ℚ :=
    match extractRequiredYears job with
    | some y => y
    | none =>
      match levelYears.findSome? fun q =>
          if strIn q.1 (lowerStr job.experienceLevel) then some q.2 else none with
      | some y => y
      | none => 2
  let score : ℚ :=
    if userYears ≥ requiredYears then
      if userYears > requiredYears * (1.5 : ℚ) then 90 else 100
    else (userYears / requiredYears) * 80
  max 0 (min 100 score)

/-! ### Education match (`_calculate_education_match`) -/

/-- The `degree_requirements` lookup, in source order. -/
def degreeRequirements : List (String × ℚ) :=
  [ ("phd", 100), ("doctorate", 100), ("master", 80), ("mba", 80)
  , ("bachelor", 60), ("associate", 40), ("degree", 50) ]

/-- Function `JobMatcher._calculate_education_match`. -/
def calcEducationMatch (p : UserProfile) (job : Job) : ℚ :=
  if p.education = [] then 50
  else
    let text := lowerStr (extractText job)
    let requiredLevel := degreeRequirements.findSome? fun q =>
      if strIn q.1 text && (strIn "required" text || strIn "must have" text)
      then some q.2 else none
    match requiredLevel with
    | none => 80
    | some req =>
      let userDegrees := p.education.filterMap fun edu =>
        degreeRequirements.findSome? fun q =>
          if strIn q.1 (lowerStr edu.degree) then some q.2 else none
      if userDegrees = [] then 40
      else
        let highest := userDegrees.foldl max 0
        if highest ≥ req then 100 else (highest / req) * 80

/-! ### Location match (`_calculate_location_match`) -/

/-- Function `JobMatcher._calculate_location_match`. -/
def calcLocationMatch (p : UserProfile) (job : Job) : ℚ :=
  if job.remoteOption then
    if p.remotePreference = "remote" ∨ p.remotePreference = "flexible" then 100
    else 80
  else if job.location = "" ∨ p.location = "" then 70
  else
    let jobLoc := lowerStr job.location
    let userLoc := lowerStr p.location
    let desiredLocs := p.desiredLocations.map lowerStr
    if strIn userLoc jobLoc || strIn jobLoc userLoc then 100
    else if desiredLocs.any fun d => strIn d jobLoc || strIn jobLoc d then 100
    else
      let userParts := splitWs (userLoc.toList.map fun c => if c = ',' then ' ' else c)
      let jobParts := splitWs (jobLoc.toList.map fun c => if c = ',' then ' ' else c)
      if userParts.any fun w => jobParts.contains w then 80
      else if p.remotePreference = "remote" then 40
      else if p.remotePreference = "flexible" then 60
      else 30

/-! ### Salary match, hiring likelihood, compensation -/

/-- Python truthiness of an optional number: `None` and `0` are falsy. -/
def truthyQ : Option ℚ → Bool
  | none => false
  | some x => decide (x ≠ 0)

/-- Python `a or b` on optional numbers. -/
def pyOr (a b : Option ℚ) : Option ℚ := if truthyQ a then a else b

/-- Function `JobMatcher._calculate_salary_match`. -/
def calcSalaryMatch (p : UserProfile) (job : Job) : ℚ :=
  if truthyQ p.minSalary = false then 70
  else if (truthyQ job.salaryMin || truthyQ job.salaryMax) = false then 60
  else
    let jobMax := pyOr job.salaryMax job.salaryMin
    let jobMin := pyOr job.salaryMin job.salaryMax
    let userMin := p.minSalary.getD 0
    if truthyQ jobMax = true ∧ jobMax.getD 0 ≥ userMin then
      if truthyQ jobMin = true ∧ jobMin.getD 0 ≥ userMin then 100 else 85
    else if truthyQ jobMax = true ∧ jobMax.getD 0 ≥ userMin * (0.9 : ℚ) then 70
    else if truthyQ jobMax = true then max 0 ((jobMax.getD 0 / userMin) * 60)
    else 50

/-- The `in_demand_skills` list of `_calculate_hiring_likelihood`. -/
def inDemandSkills : List String :=
  [ "python", "javascript", "aws", "kubernetes", "react"
  , "machine learning", "data science", "golang", "rust" ]

/-- Function `JobMatcher._calculate_hiring_likelihood`, as a function of the
profile and the `MatchScore` record passed to it. -/
def calcHiringLikelihood (p : UserProfile) (score : MatchScore) : ℚ :=
  let baseLikelihood := score.overallScore * (0.6 : ℚ)
  let skillFactor := score.skillMatchScore * (0.25 : ℚ)
  let expFactor := score.experienceMatchScore * (0.15 : ℚ)
  let demandBonus : ℚ :=
    min 10 (2 * ((p.skills.countP fun s => inDemandSkills.contains (lowerStr s.name) : ℕ) : ℚ))
  let missingPenalty : ℚ := min 20 (((score.missingSkills.length : ℕ) : ℚ) * 3)
  max 5 (min 95 (baseLikelihood + skillFactor + expFactor + demandBonus - missingPenalty))

/-- Function `JobMatcher._calculate_compensation_score`. -/
def calcCompensationScore (p : UserProfile) (job : Job) : ℚ :=
  if (truthyQ job.salaryMax || truthyQ job.salaryMin) = false then 50
  else
    let salary := (pyOr job.salaryMax job.salaryMin).getD 0
    if truthyQ p.minSalary = true then
      let r := salary / p.minSalary.getD 0
      if r ≥ (1.3 : ℚ) then 100
      else if r ≥ (1.1 : ℚ) then 90
      else if r ≥ 1 then 80
      else if r ≥ (0.9 : ℚ) then 70
      else max 20 (r * 60)
    else
      if salary ≥ 200000 then 95
      else if salary ≥ 150000 then 85
      else if salary ≥ 120000 then 75
      else if salary ≥ 90000 then 65
      else if salary ≥ 60000 then 50
      else 40

/-! ### Skill details, `match_job`, `rank_jobs` -/

/-- Function `JobMatcher._get_skill_details`: (matched, missing, bonus). -/
def getSkillDetails (p : UserProfile) (job : Job) :
    List String × List String × List String :=
  let userSkills := pySet (p.skills.map fun s => lowerStr s.name)
  let required := pySet (job.requiredSkills.map lowerStr)
  let preferred := pySet (job.preferredSkills.map lowerStr)
  let allJobSkills := required ++ preferred
  let matchedPred := fun (s : String) =>
    allJobSkills.contains s || allJobSkills.any fun js => skillsMatch s js
  let matched := (userSkills.filter matchedPred).map titleCase
  let bonus := (userSkills.filter fun s => !(matchedPred s)).map titleCase
  let missing := (required.filter fun req =>
    !(userSkills.contains req) &&
      !(userSkills.any fun us => skillsMatch req us)).map titleCase
  (matched, missing, bonus)

/-- Function `JobMatcher.match_job`.  The assignments of the Python method are
performed in source order on the freshly constructed `MatchScore`:
in particular `hiring_likelihood` is computed from the record as it
stands *before* `matched/missing/bonus` skills are filled in. -/
def matchJob (p : UserProfile) (job : Job) (now : ℤ) : MatchScore :=
  let skill := calcSkillMatch p job
  let exp := calcExperienceMatch p job now
  let edu := calcEducationMatch p job
  let loc := calcLocationMatch p job
  let sal := calcSalaryMatch p job
  let overall :=
    skill * (0.35 : ℚ) + exp * (0.20 : ℚ) + edu * (0.10 : ℚ) +
      loc * (0.15 : ℚ) + sal * (0.20 : ℚ)
  let partialScore : MatchScore :=
    { overallScore := overall
    , skillMatchScore := skill
    , experienceMatchScore := exp
    , educationMatchScore := edu
    , locationMatchScore := loc
    , salaryMatchScore := sal }
  let hiring := calcHiringLikelihood p partialScore
  let comp := calcCompensationScore p job
  let details := getSkillDetails p job
  { partialScore with
      hiringLikelihood := hiring
    , compensationScore := comp
    , matchedSkills := details.1
    , missingSkills := details.2.1
    , bonusSkills := details.2.2 }

/-- The `sort_keys` lookup of `rank_jobs`, with
`sort_keys.get(sort_by, sort_keys["overall"])` built in. -/
def sortKeyFn (sortBy : String) (s : MatchScore) : ℚ :=
  if sortBy = "overall" then s.overallScore
  else if sortBy = "hiring_likelihood" then s.hiringLikelihood
  else if sortBy = "compensation" then s.compensationScore
  else if sortBy = "skill_match" then s.skillMatchScore
  else s.overallScore

/-- The descending comparison used by
`scored_jobs.sort(key=key_func, reverse=True)`. -/
def rankLE (sortBy : String) (a b : Job × MatchScore) : Bool :=
  decide (sortKeyFn sortBy b.2 ≤ sortKeyFn sortBy a.2)

/-- Function `JobMatcher.rank_jobs`: Python's stable `list.sort(key=..., reverse=True)`
is a stable merge sort under the reversed (descending) comparison. -/
def rankJobs (p : UserProfile) (jobs : List Job) (sortBy : String) (now : ℤ) :
    List (Job × MatchScore) :=
  let scoredJobs := jobs.map fun j => (j, matchJob p j now)
  scoredJobs.mergeSort (rankLE sortBy)

/-! ### Concrete instances used by witnesses and counterexamples -/

/-- Profile for the C5 witness: skills `["Python", "Kubernetes"]`. -/
def formulaProfile : UserProfile :=
  { skills := [{ name := "Python" }, { name := "Kubernetes" }] }

/-- Job for the C5 witness: `required_skills=["Python","AWS"]`,
`preferred_skills=["Docker"]`. -/
def formulaJob : Job :=
  { requiredSkills := ["Python", "AWS"], preferredSkills := ["Docker"] }

/-- Profile with a negative minimum-salary expectation (`min_salary=-10`). -/
def negSalaryProfile : UserProfile := { minSalary := some (-10) }

/-- Job advertising a negative salary ceiling (`salary_max=-100`). -/
def negSalaryJob : Job := { salaryMax := some (-100) }

/-- Profile whose single skill matches nothing in `penaltyJob`. -/
def penaltyProfile : UserProfile := { skills := [{ name := "java" }] }

/-- Job requiring a skill the `penaltyProfile` lacks. -/
def penaltyJob : Job := { requiredSkills := ["haskell"] }

/-- Profile with one ongoing experience (`end_date=None`), so its
duration is computed from the current clock reading. -/
def clockProfile : UserProfile := { experiences := [{ startDate := 0 }] }

/-- Profile whose only experience is closed (`end_date` present). -/
def closedProfile : UserProfile :=
  { experiences := [{ startDate := 0, endDate := some 365 }] }

/-- Profile with every optional field absent. -/
def emptyProfile : UserProfile := {}

/-- Job with every optional field absent (empty description). -/
def emptyJob : Job := {}

/-- Job with no listed skills but a non-empty description. -/
def zeroSkillDescJob : Job := { description := "x" }

/-- Profile stating a minimum salary, for the job-with-no-salary default. -/
def salariedProfile : UserProfile := { minSalary := some 50000 }

/-! ## Theorems -/

attribute [local semireducible] Rat.add Rat.mul Rat.inv Rat.sub Rat.ofScientific

/-- C1: for every profile and job (and clock reading), the overall score of
the returned `MatchScore` is exactly the weighted sum of its five primary
sub-scores with weights 0.35 / 0.20 / 0.10 / 0.15 / 0.20 (exact in `ℚ`,
hence within floating-point tolerance in the Python original). -/
theorem overall_score_eq_weighted_sum (p : UserProfile) (job : Job) (now : ℤ) :
    (matchJob p job now).overallScore =
      (matchJob p job now).skillMatchScore * (0.35 : ℚ) +
      (matchJob p job now).experienceMatchScore * (0.20 : ℚ) +
      (matchJob p job now).educationMatchScore * (0.10 : ℚ) +
      (matchJob p job now).locationMatchScore * (0.15 : ℚ) +
      (matchJob p job now).salaryMatchScore * (0.20 : ℚ) := rfl

/-- C2 (failing evaluation): with a negative minimum-salary expectation and
a negative advertised salary, `_calculate_salary_match` returns 600, far
outside the documented `[0, 100]` range, and the overall score of the
returned `MatchScore` also exceeds 100. -/
theorem salary_match_out_of_range :
    (matchJob negSalaryProfile negSalaryJob 0).salaryMatchScore = 600 ∧
      ¬ (matchJob negSalaryProfile negSalaryJob 0).salaryMatchScore ≤ 100 ∧
      ¬ (matchJob negSalaryProfile negSalaryJob 0).overallScore ≤ 100 := by
  decide

/-- C3 (failing evaluation): `match_job` computes `hiring_likelihood`
before `missing_skills` is populated, so the missing-skill penalty is
always taken over the empty list.  Here the returned score has one missing
skill, the code yields likelihood 17.7, while the claimed formula (with
`missing_penalty = min(20, 3 × len(missing_skills))` over the returned
record, demand bonus spelled out) yields 14.7. -/
theorem hiring_likelihood_ignores_missing_penalty :
    (matchJob penaltyProfile penaltyJob 0).missingSkills = ["Haskell"] ∧
    (matchJob penaltyProfile penaltyJob 0).hiringLikelihood = (17.7 : ℚ) ∧
    max 5 (min 95
      ((matchJob penaltyProfile penaltyJob 0).overallScore * (0.6 : ℚ) +
       (matchJob penaltyProfile penaltyJob 0).skillMatchScore * (0.25 : ℚ) +
       (matchJob penaltyProfile penaltyJob 0).experienceMatchScore * (0.15 : ℚ) +
       min 10 (2 * ((penaltyProfile.skills.countP fun s =>
         inDemandSkills.contains (lowerStr s.name) : ℕ) : ℚ)) -
       min 20 (((matchJob penaltyProfile penaltyJob 0).missingSkills.length : ℚ) * 3)))
      = (14.7 : ℚ) := by
  decide

/-- C9 (amended): a profile with zero skills and a job with zero
required and zero preferred skills takes the fuzzy description path,
which is total (division-safe); with the empty description the result
is 50. -/
theorem zero_skills_fuzzy_path (p : UserProfile) (job : Job)
    (_hs : p.skills = []) (hr : job.requiredSkills = [])
    (hp : job.preferredSkills = []) :
    calcSkillMatch p job = fuzzySkillMatch p job.description ∧
      (job.description = "" → calcSkillMatch p job = 50) := by
  constructor
  · simp [calcSkillMatch, hr, hp]
  · intro hd
    simp [calcSkillMatch, hr, hp, fuzzySkillMatch, hd]

/-- C9 witness: the concrete empty-description instance of
`zero_skills_fuzzy_path`. -/
theorem zero_skills_fuzzy_path_witness :
    (emptyProfile.skills = [] ∧ emptyJob.requiredSkills = [] ∧
      emptyJob.preferredSkills = [] ∧ emptyJob.description = "") ∧
    calcSkillMatch emptyProfile emptyJob = 50 :=
  ⟨⟨rfl, rfl, rfl, rfl⟩,
    (zero_skills_fuzzy_path emptyProfile emptyJob rfl rfl rfl).2 rfl⟩

/-- C9 counterexample: with zero profile skills and zero job skills but a
non-empty description, the fuzzy path returns 0, not 50 — refuting the
claim that this scenario always yields 50. -/
theorem zero_skills_nonempty_description_not_fifty :
    emptyProfile.skills = [] ∧ zeroSkillDescJob.requiredSkills = [] ∧
    zeroSkillDescJob.preferredSkills = [] ∧
    calcSkillMatch emptyProfile zeroSkillDescJob = 0 ∧
    calcSkillMatch emptyProfile zeroSkillDescJob ≠ 50 := by
  decide

/-- C10: a `sort_by` value outside the recognized set falls back to
sorting by overall score: the output is identical to
`rank_jobs(..., sort_by="overall")`. -/
theorem rank_jobs_unknown_key_fallback (p : UserProfile) (jobs : List Job)
    (sortBy : String) (now : ℤ)
    (h : sortBy ∉ (["overall", "hiring_likelihood", "compensation",
      "skill_match"] : List String)) :
    rankJobs p jobs sortBy now = rankJobs p jobs "overall" now := by
  simp only [List.mem_cons, List.not_mem_nil, or_false, not_or] at h
  obtain ⟨h1, h2, h3, h4⟩ := h
  have hk : rankLE sortBy = rankLE "overall" := by
    funext a b
    simp [rankLE, sortKeyFn, h1, h2, h3, h4]
  simp [rankJobs, hk]

/-- C10 witness: the unrecognized key `"banana"` on a one-job list. -/
theorem rank_jobs_unknown_key_fallback_witness :
    (("banana" : String) ∉ (["overall", "hiring_likelihood", "compensation",
      "skill_match"] : List String)) ∧
    rankJobs emptyProfile [emptyJob] "banana" 0 =
      rankJobs emptyProfile [emptyJob] "overall" 0 :=
  ⟨by decide,
    rank_jobs_unknown_key_fallback emptyProfile [emptyJob] "banana" 0 (by decide)⟩

/-- C8: scoring never fails on missing optional data; each documented
neutral default holds: no minimum salary ⇒ salary match 70; a stated
minimum salary but no job salary data ⇒ 60; no education ⇒ education
match 50; non-remote job with an empty job or profile location ⇒
location match 70.  (Totality is inherent: every scoring function is a
total function of its inputs.) -/
theorem missing_data_defaults (p : UserProfile) (job : Job) :
    (p.minSalary = none → calcSalaryMatch p job = 70) ∧
    (truthyQ p.minSalary = true → job.salaryMin = none → job.salaryMax = none →
      calcSalaryMatch p job = 60) ∧
    (p.education = [] → calcEducationMatch p job = 50) ∧
    (job.remoteOption = false → job.location = "" ∨ p.location = "" →
      calcLocationMatch p job = 70) := by
  refine ⟨?_, ?_, ?_, ?_⟩
  · intro h
    simp [calcSalaryMatch, truthyQ, h]
  · intro ht h1 h2
    unfold calcSalaryMatch
    rw [ht]
    simp [truthyQ, h1, h2]
  · intro h
    simp [calcEducationMatch, h]
  · intro h hl
    rcases hl with hl | hl <;> simp [calcLocationMatch, h, hl]

/-- C8 witness: the four defaults evaluated on concrete profiles/jobs. -/
theorem missing_data_defaults_witness :
    calcSalaryMatch emptyProfile emptyJob = 70 ∧
    calcSalaryMatch salariedProfile emptyJob = 60 ∧
    calcEducationMatch emptyProfile emptyJob = 50 ∧
    calcLocationMatch emptyProfile emptyJob = 70 :=
  ⟨(missing_data_defaults emptyProfile emptyJob).1 rfl,
   (missing_data_defaults salariedProfile emptyJob).2.1 (by decide) rfl rfl,
   (missing_data_defaults emptyProfile emptyJob).2.2.1 rfl,
   (missing_data_defaults emptyProfile emptyJob).2.2.2 rfl (Or.inl rfl)⟩

/-- One synonym-table clause of `_skills_match` is symmetric in the two
skill names. -/
theorem variantClause_symm (s1 s2 : String) (p : String × List String) :
    variantClause s1 s2 p = variantClause s2 s1 p := by
  unfold variantClause
  cases h1 : (s1 == p.1) <;> cases h2 : (s2 == p.1) <;>
    cases h3 : (p.2.contains s1) <;> cases h4 : (p.2.contains s2) <;>
    simp [h1, h2, h3, h4]

/-- Scanning the synonym table is symmetric in the two skill names. -/
theorem any_variantClause_symm (l : List (String × List String)) (s1 s2 : String) :
    l.any (variantClause s1 s2) = l.any (variantClause s2 s1) := by
  induction l with
  | nil => rfl
  | cons h t ih => simp [List.any_cons, ih, variantClause_symm]

/-- C7: the skill-equivalence relation `_skills_match` is symmetric for
all skill-name strings (so in particular on every synonym-table entry). -/
theorem skills_match_symmetric (a b : String) :
    skillsMatch a b = skillsMatch b a := by
  unfold skillsMatch
  rw [any_variantClause_symm]
  have hbeq : (a == b) = (b == a) := by
    by_cases h : a = b
    · subst h; rfl
    · rw [beq_eq_false_iff_ne.mpr h, beq_eq_false_iff_ne.mpr (Ne.symm h)]
  rw [hbeq]
  cases hx : decide (3 < a.length) <;> cases hy : decide (3 < b.length) <;>
    cases hu : strIn a b <;> cases hv : strIn b a <;>
    simp [hx, hy, hu, hv]

/-- C6 counterexample: scoring consults the clock (`datetime.now()` via
`Experience.duration_years`) for experiences without an end date, so two
invocations of `match_job` on the same profile and job can return
different `MatchScore` values (here: clock readings 0 and 3653 days). -/
theorem match_job_depends_on_clock :
    matchJob clockProfile emptyJob 0 ≠ matchJob clockProfile emptyJob 3653 := by
  decide

/-- C6 (amended): scoring is a pure function of (profile, job, clock
reading); whenever every experience of the profile has an end date the
clock is not consulted, and repeated calls agree exactly. -/
theorem match_job_deterministic_of_closed_experiences
    (p : UserProfile) (job : Job) (t1 t2 : ℤ)
    (h : ∀ e ∈ p.experiences, e.endDate ≠ none) :
    matchJob p job t1 = matchJob p job t2 := by
  have hyears : totalExperienceYears t1 p = totalExperienceYears t2 p := by
    unfold totalExperienceYears
    congr 1
    apply List.map_congr_left
    intro e he
    have hne := h e he
    unfold durationYears
    cases hed : e.endDate with
    | none => exact absurd hed hne
    | some d => simp
  have hexp : calcExperienceMatch p job t1 = calcExperienceMatch p job t2 := by
    unfold calcExperienceMatch
    rw [hyears]
  unfold matchJob
  rw [hexp]

/-- C6 witness: a profile whose only experience is closed scores
identically at two different clock readings. -/
theorem match_job_deterministic_witness :
    (∀ e ∈ closedProfile.experiences, e.endDate ≠ none) ∧
    matchJob closedProfile emptyJob 5 = matchJob closedProfile emptyJob 99 :=
  ⟨by decide,
    match_job_deterministic_of_closed_experiences closedProfile emptyJob 5 99
      (by decide)⟩

/-- The membership test against the lowercased profile-skill set is
subsumed by the equivalence test: `_skills_match` is reflexive, so
`req_lower in user_skills_lower or any(_skills_match ...)` equals the
pure existence of an equivalent profile skill. -/
theorem skillMatchesUser_eq_any (p : UserProfile) (r : String) :
    skillMatchesUser p r =
      ((userSkillsLower p).any fun us => skillsMatch (lowerStr r) us) := by
  show ((userSkillsLower p).contains (lowerStr r) ||
      (userSkillsLower p).any fun us => skillsMatch (lowerStr r) us) =
    ((userSkillsLower p).any fun us => skillsMatch (lowerStr r) us)
  by_cases hmem : lowerStr r ∈ userSkillsLower p
  · have hc : (userSkillsLower p).contains (lowerStr r) = true := by
      simpa using hmem
    have hself : skillsMatch (lowerStr r) (lowerStr r) = true := by
      unfold skillsMatch
      simp
    have hany : ((userSkillsLower p).any fun us => skillsMatch (lowerStr r) us) = true :=
      List.any_eq_true.mpr ⟨lowerStr r, hmem, hself⟩
    rw [hc, hany, Bool.true_or]
  · have hc : (userSkillsLower p).contains (lowerStr r) = false := by
      simpa using hmem
    rw [hc, Bool.false_or]

/-- C5: whenever the job lists at least one required or preferred skill,
the skill-match score is `min(100, 70·(matched required / total required)
+ 30·(matched preferred / total preferred))`, where a job skill is
matched when it is skill-equivalent to some profile skill.  (When one of
the two lists is empty, its matched count is 0 and the corresponding
ratio is 0 — in `ℚ`, division by zero yields 0, matching the code's
`len(...) or 1` denominator guard.) -/
theorem skill_match_formula (p : UserProfile) (job : Job)
    (h : job.requiredSkills ≠ [] ∨ job.preferredSkills ≠ []) :
    calcSkillMatch p job = min 100
      (70 * (((job.requiredSkills.countP fun r =>
          (userSkillsLower p).any fun us => skillsMatch (lowerStr r) us) : ℚ) /
          (job.requiredSkills.length : ℚ)) +
       30 * (((job.preferredSkills.countP fun r =>
          (userSkillsLower p).any fun us => skillsMatch (lowerStr r) us) : ℚ) /
          (job.preferredSkills.length : ℚ))) := by
  have hf : skillMatchesUser p = fun r =>
      ((userSkillsLower p).any fun us => skillsMatch (lowerStr r) us) :=
    funext fun r => skillMatchesUser_eq_any p r
  have hne : ¬ (job.requiredSkills = [] ∧ job.preferredSkills = []) := by
    rintro ⟨ha, hb⟩
    rcases h with hn | hn
    · exact hn ha
    · exact hn hb
  unfold calcSkillMatch
  rw [hf, if_neg hne]
  by_cases hR : job.requiredSkills = [] <;> by_cases hP : job.preferredSkills = []
  · exact absurd ⟨hR, hP⟩ hne
  · have hPl : job.preferredSkills.length ≠ 0 :=
      fun hh => hP (List.length_eq_zero.mp hh)
    simp [hR, hPl, div_zero, mul_comm]
  · have hRl : job.requiredSkills.length ≠ 0 :=
      fun hh => hR (List.length_eq_zero.mp hh)
    simp [hP, hRl, div_zero, mul_comm]
  · have hRl : job.requiredSkills.length ≠ 0 :=
      fun hh => hR (List.length_eq_zero.mp hh)
    have hPl : job.preferredSkills.length ≠ 0 :=
      fun hh => hP (List.length_eq_zero.mp hh)
    simp [hRl, hPl, mul_comm]

/-- C5 witness: the spec's concrete instance — required
`["Python","AWS"]`, preferred `["Docker"]`, profile
`["Python","Kubernetes"]` — satisfies the hypothesis and scores 35. -/
theorem skill_match_formula_witness :
    (formulaJob.requiredSkills ≠ [] ∨ formulaJob.preferredSkills ≠ []) ∧
    calcSkillMatch formulaProfile formulaJob = 35 := by
  refine ⟨by decide, ?_⟩
  rw [skill_match_formula formulaProfile formulaJob (by decide)]
  decide

/-- The descending ranking comparison is transitive. -/
theorem rankLE_trans (s : String) :
    ∀ a b c, rankLE s a b → rankLE s b c → rankLE s a c := by
  intro a b c hab hbc
  simp only [rankLE, decide_eq_true_eq] at *
  exact le_trans hbc hab

/-- The descending ranking comparison is total. -/
theorem rankLE_total (s : String) : ∀ a b, rankLE s a b || rankLE s b a := by
  intro a b
  simp only [rankLE, Bool.or_eq_true, decide_eq_true_eq]
  exact le_total _ _

/-- C4: for every recognized sort key, `rank_jobs` pairs each input job
with its score (the output is a permutation of the scored input list),
sorts descending by the selected key, is stable (for every key value `q`,
the output entries whose key equals `q` are exactly the input entries
whose key equals `q`, in input order), and maps the empty job list to the
empty list. -/
theorem rank_jobs_sorted_stable (p : UserProfile) (jobs : List Job)
    (sortBy : String) (now : ℤ)
    (_h : sortBy ∈ (["overall", "hiring_likelihood", "compensation",
      "skill_match"] : List String)) :
    rankJobs p [] sortBy now = [] ∧
    (rankJobs p jobs sortBy now).Perm (jobs.map fun j => (j, matchJob p j now)) ∧
    (rankJobs p jobs sortBy now).Pairwise
      (fun a b => sortKeyFn sortBy b.2 ≤ sortKeyFn sortBy a.2) ∧
    ∀ q : ℚ,
      (rankJobs p jobs sortBy now).filter
        (fun x => decide (sortKeyFn sortBy x.2 = q)) =
      (jobs.map fun j => (j, matchJob p j now)).filter
        (fun x => decide (sortKeyFn sortBy x.2 = q)) := by
  refine ⟨by simp [rankJobs], ?_, ?_, ?_⟩
  · simpa [rankJobs] using
      List.mergeSort_perm (jobs.map fun j => (j, matchJob p j now)) (rankLE sortBy)
  · have hs := List.sorted_mergeSort
      (rankLE_trans sortBy) (rankLE_total sortBy)
      (jobs.map fun j => (j, matchJob p j now))
    show ((jobs.map fun j => (j, matchJob p j now)).mergeSort (rankLE sortBy)).Pairwise _
    exact hs.imp fun hab => of_decide_eq_true hab
  · intro q
    show ((jobs.map fun j => (j, matchJob p j now)).mergeSort (rankLE sortBy)).filter _ = _
    generalize (jobs.map fun j => (j, matchJob p j now)) = scored
    have hkey : ∀ x ∈ scored.filter
        (fun x : Job × MatchScore => decide (sortKeyFn sortBy x.2 = q)),
        sortKeyFn sortBy x.2 = q :=
      fun x hx => of_decide_eq_true (List.mem_filter.mp hx).2
    have hApw : (scored.filter
        (fun x : Job × MatchScore => decide (sortKeyFn sortBy x.2 = q))).Pairwise
        (fun a b => rankLE sortBy a b = true) := by
      apply List.pairwise_of_forall_mem_list
      intro a ha b hb
      have h1 := hkey a ha
      have h2 := hkey b hb
      simp [rankLE, h1, h2]
    have hAout : List.Sublist
        (scored.filter (fun x : Job × MatchScore => decide (sortKeyFn sortBy x.2 = q)))
        (scored.mergeSort (rankLE sortBy)) :=
      List.sublist_mergeSort (rankLE_trans sortBy) (rankLE_total sortBy)
        hApw (List.filter_sublist scored)
    have hfil : (scored.filter
        (fun x : Job × MatchScore => decide (sortKeyFn sortBy x.2 = q))).filter
        (fun x : Job × MatchScore => decide (sortKeyFn sortBy x.2 = q)) =
        scored.filter (fun x : Job × MatchScore => decide (sortKeyFn sortBy x.2 = q)) :=
      List.filter_eq_self.mpr fun a ha => (List.mem_filter.mp ha).2
    have hsubB : List.Sublist
        (scored.filter (fun x : Job × MatchScore => decide (sortKeyFn sortBy x.2 = q)))
        ((scored.mergeSort (rankLE sortBy)).filter
          (fun x : Job × MatchScore => decide (sortKeyFn sortBy x.2 = q))) := by
      have hstep := hAout.filter
        (fun x : Job × MatchScore => decide (sortKeyFn sortBy x.2 = q))
      rwa [hfil] at hstep
    have hlen : ((scored.mergeSort (rankLE sortBy)).filter
        (fun x : Job × MatchScore => decide (sortKeyFn sortBy x.2 = q))).length =
        (scored.filter
          (fun x : Job × MatchScore => decide (sortKeyFn sortBy x.2 = q))).length :=
      ((List.mergeSort_perm scored (rankLE sortBy)).filter
        (fun x : Job × MatchScore => decide (sortKeyFn sortBy x.2 = q))).length_eq
    exact (hsubB.eq_of_length hlen.symm).symm

/-- C4 witness: the "hiring_likelihood" key is recognized and the empty
job list ranks to the empty list. -/
theorem rank_jobs_sorted_stable_witness :
    (("hiring_likelihood" : String) ∈ (["overall", "hiring_likelihood",
      "compensation", "skill_match"] : List String)) ∧
    rankJobs emptyProfile [] "hiring_likelihood" 0 = [] :=
  ⟨by decide,
    (rank_jobs_sorted_stable emptyProfile [] "hiring_likelihood" 0 (by decide)).1⟩

end JobMatcher
